import Mathlib

/-!
Verification of the libp2p connection upgrade pipeline.

This file is a shallow embedding of `packages/libp2p/src/upgrader.ts` and of
the TCP transport's `dial` method.  Collaborator calls (connection manager,
gater, protector, encrypters, multistream-select, muxer factories) are
suspension points whose outcomes are supplied by an environment record; the
upgrader's own control flow — ordering of the gating checkpoints, error
wrapping, the `finally` clause, stream-limit checks and stream routing — is
translated statement by statement from the source.  Every observable side
effect (checkpoint invocation, `afterUpgradeInbound`, closing the underlying
connection, dispatching events, invoking a handler) is recorded in a trace of
`Event`s so that the temporal claims can be stated as properties of traces.
-/

/-- A peer id; only identity matters for the upgrader. -/
structure PeerId where
  pid : Nat
deriving DecidableEq, Repr

/-- Stream / connection direction. -/
inductive Direction where
  | inbound
  | outbound
deriving DecidableEq, Repr

/-- The admission / gating checkpoints consulted during an upgrade. -/
inductive Checkpoint where
  | acceptIncomingConnection
  | denyInboundConnection
  | denyInboundEncryptedConnection
  | denyInboundUpgradedConnection
  | denyOutboundConnection
  | denyOutboundEncryptedConnection
  | denyOutboundUpgradedConnection
deriving DecidableEq, Repr

/-- The error taxonomy of the upgrader (spec section 7, `errors.js` and
`@libp2p/interface` errors as thrown by `upgrader.ts`). -/
inductive Err where
  | connectionDenied
  | connectionIntercepted (checkpoint : Checkpoint)
  | invalidMultiaddr (msg : String)
  | invalidPeerId (msg : String)
  | encryptionFailed (msg : String)
  | muxerUnavailable (msg : String)
  | tooManyInboundProtocolStreams (protocol : String) (limit : Option Nat)
  | tooManyOutboundProtocolStreams (protocol : String) (count : Nat) (limit : Nat)
  | limitedConnection (msg : String)
  | timeout (msg : String)
  | aborted
  | unhandledProtocol
  | other (msg : String)
deriving DecidableEq, Repr

/-- Observable effects of the upgrader, recorded in program order. -/
inductive Event where
  | checkpoint (cp : Checkpoint)
  | afterUpgradeInbound
  | maConnClose (cause : Option Err)
  | connectionOpen
  | streamAbort
  | streamClose
  | peerStoreMerge (protocol : String)
  | handlerInvoked (protocol : String) (handlerId : Nat)
  | connClose
deriving DecidableEq, Repr

/-- `true` on the `connectionIntercepted` errors produced by gater denials. -/
def Err.isIntercepted : Err → Bool
  | .connectionIntercepted _ => true
  | _ => false

def Event.isMaConnClose : Event → Bool
  | .maConnClose _ => true
  | _ => false

def Event.isHandlerInvoked : Event → Bool
  | .handlerInvoked _ _ => true
  | _ => false

/-- Events an inbound/outbound upgrade may emit before any stream exists. -/
def Event.isUpgradePhase : Event → Bool
  | .checkpoint _ => true
  | .connectionOpen => true
  | _ => false

def Event.checkpointOf : Event → Option Checkpoint
  | .checkpoint cp => some cp
  | _ => none

/-- The checkpoints invoked, in order, during a trace. -/
def checkpointsOf (tr : List Event) : List Checkpoint :=
  tr.filterMap Event.checkpointOf

/-- How many times `afterUpgradeInbound` was invoked in a trace. -/
def countAfterUpgradeInbound (tr : List Event) : Nat :=
  (tr.filter fun e => e = Event.afterUpgradeInbound).length

/-- A muxed stream, as visible to `countStreams`: direction, the negotiated
protocol (mutable, `none` until selection) and the close timestamp flag. -/
structure StreamRec where
  id : Nat
  direction : Direction
  protocol : Option String
  timelineClose : Bool
deriving DecidableEq, Repr

/-- The stream muxer installed on a connection: its protocol name and the
live stream set. -/
structure Muxer where
  protocol : String
  streams : List StreamRec
deriving DecidableEq, Repr

/-- The public connection handle built by `_createConnection`. -/
structure Connection where
  remotePeer : PeerId
  direction : Direction
  encryption : String
  multiplexer : Option String
  limits : Option Nat
  muxer : Option Muxer
deriving DecidableEq, Repr

/-- `getStreams`: the muxer's live stream set, or empty if no muxer. -/
def Connection.getStreams (c : Connection) : List StreamRec :=
  match c.muxer with
  | some m => m.streams
  | none => []

/-- Handler registration options (`maxInboundStreams?`, `maxOutboundStreams?`,
`runOnLimitedConnection?`). -/
structure HandlerOptions where
  maxInboundStreams : Option Nat
  maxOutboundStreams : Option Nat
  runOnLimitedConnection : Option Bool
deriving DecidableEq, Repr

/-- A registrar handler entry; the handler function itself is identified by a
numeral so that `handlerInvoked` events can name it. -/
structure RegistrarEntry where
  handlerId : Nat
  options : HandlerOptions
deriving DecidableEq, Repr

/-- The protocol registrar: a handler table keyed by protocol name. -/
structure Registrar where
  handlers : List (String × RegistrarEntry)
deriving DecidableEq, Repr

/-- `registrar.getHandler(protocol)`: missing protocol raises an
unhandled-protocol error. -/
def Registrar.getHandler (r : Registrar) (protocol : String) : Except Err RegistrarEntry :=
  match r.handlers.find? (fun h => h.1 = protocol) with
  | some h => .ok h.2
  | none => .error .unhandledProtocol

/-- Modelled from the spec: `DEFAULT_MAX_INBOUND_STREAMS` is imported from
`registrar.js`, which is not among the sources; the spec fixes the
conventional default 32. -/
def DEFAULT_MAX_INBOUND_STREAMS : Nat := 32

/-- Modelled from the spec: `DEFAULT_MAX_OUTBOUND_STREAMS` is imported from
`registrar.js`, which is not among the sources; the spec fixes the
conventional default 32. -/
def DEFAULT_MAX_OUTBOUND_STREAMS : Nat := 32

/-- Options accepted by `newStream`. -/
structure NewStreamOptions where
  maxOutboundStreams : Option Nat
deriving DecidableEq, Repr

/-- `findIncomingStreamLimit` from `upgrader.ts`: the handler's
`maxInboundStreams` (which may be absent) when the protocol is registered;
the default only when the registrar throws an unhandled-protocol error. -/
def findIncomingStreamLimit (protocol : String) (registrar : Registrar) : Option Nat :=
  match registrar.getHandler protocol with
  | .ok entry => entry.options.maxInboundStreams
  | .error _ => some DEFAULT_MAX_INBOUND_STREAMS

/-- `findOutgoingStreamLimit` from `upgrader.ts`: the handler's
`maxOutboundStreams` wins, else the caller's option, else the default. -/
def findOutgoingStreamLimit (protocol : String) (registrar : Registrar) (options : NewStreamOptions) : Nat :=
  match registrar.getHandler protocol with
  | .ok entry =>
    match entry.options.maxOutboundStreams with
    | some limit => limit
    | none => options.maxOutboundStreams.getD DEFAULT_MAX_OUTBOUND_STREAMS
  | .error _ => options.maxOutboundStreams.getD DEFAULT_MAX_OUTBOUND_STREAMS

/-- `countStreams` from `upgrader.ts`: the streams of the connection with the
given direction whose negotiated protocol equals `protocol`. -/
def countStreams (protocol : String) (direction : Direction) (connection : Connection) : Nat :=
  (connection.getStreams.filter fun s =>
    decide (s.direction = direction) && decide (s.protocol = some protocol)).length

/-- The connection gater: each method is optional (`none` = absent = allow);
`some deny` is the value the method would return. -/
structure Gater where
  denyInboundConnection : Option Bool
  denyInboundEncryptedConnection : Option Bool
  denyInboundUpgradedConnection : Option Bool
  denyOutboundConnection : Option Bool
  denyOutboundEncryptedConnection : Option Bool
  denyOutboundUpgradedConnection : Option Bool
deriving DecidableEq, Repr

/-- Per-upgrade options (`UpgraderOptions`): the explicit muxer factory is
identified by its protocol name. -/
structure UpgraderOpts where
  skipProtection : Bool
  skipEncryption : Bool
  muxerFactory : Option String
  limits : Option Nat
deriving DecidableEq, Repr

/-- Outcomes of the collaborator calls an inbound upgrade suspends on.
Collaborator failures are opaque to the upgrader and are carried as message
strings. -/
structure InboundEnv where
  accept : Bool
  gater : Gater
  protectorPresent : Bool
  protectResult : Option String
  encryptRaw : Except String (PeerId × String)
  remoteAddrPeerId : Option PeerId
  muxers : List String
  multiplexRaw : Except String String
deriving Repr

/-- Outcomes of the collaborator calls an outbound upgrade suspends on. -/
structure OutboundEnv where
  gater : Gater
  protectorPresent : Bool
  protectResult : Option String
  encryptRaw : Except String (PeerId × String)
  remoteAddrPeerId : Option PeerId
  muxers : List String
  multiplexRaw : Except String String
deriving Repr

/-- `shouldBlockConnection`: invoke the gater method when it is defined and
throw `ConnectionInterceptedError` when it answers `true`.  The returned
trace records the invocation. -/
def shouldBlockConnection (method : Option Bool) (cp : Checkpoint) : Except Err Unit × List Event :=
  match method with
  | none => (.ok (), [])
  | some deny =>
    if deny then (.error (.connectionIntercepted cp), [.checkpoint cp])
    else (.ok (), [.checkpoint cp])

/-- The protector stage: `protector.protect` runs only when protection is not
skipped and a protector is configured; its failure propagates unchanged. -/
def protectStage (skipProtection protectorPresent : Bool) (protectResult : Option String) : Except Err Unit :=
  if skipProtection then .ok ()
  else if protectorPresent then
    match protectResult with
    | none => .ok ()
    | some msg => .error (.other msg)
  else .ok ()

/-- `_encryptInbound`: any failure is wrapped in `EncryptionFailedError`
carrying the inner message. -/
def _encryptInbound (encryptRaw : Except String (PeerId × String)) : Except Err (PeerId × String) :=
  match encryptRaw with
  | .ok r => .ok r
  | .error msg => .error (.encryptionFailed msg)

/-- `_encryptOutbound`: any failure is wrapped in `EncryptionFailedError`
carrying the inner message. -/
def _encryptOutbound (encryptRaw : Except String (PeerId × String)) : Except Err (PeerId × String) :=
  match encryptRaw with
  | .ok r => .ok r
  | .error msg => .error (.encryptionFailed msg)

/-- The multiplexer stage of both upgrade directions: an explicit
`muxerFactory` option short-circuits selection; with no configured muxers the
stage is skipped; otherwise multistream-select picks a protocol and the
factory is looked up in the configured map (`_multiplexInbound` /
`_multiplexOutbound` wrap failures in `MuxerUnavailableError`). -/
def muxStage (muxers : List String) (multiplexRaw : Except String String) (optFactory : Option String) : Except Err (Option String) :=
  match optFactory with
  | some f => .ok (some f)
  | none =>
    if muxers.isEmpty then .ok none
    else
      match multiplexRaw with
      | .error msg => .error (.muxerUnavailable msg)
      | .ok protocol => .ok (if muxers.contains protocol then some protocol else none)

/-- The inbound encryption stage: skipping encryption requires a peer id in
the remote multiaddress and records the literal protocol name `native`;
otherwise the connection is encrypted and the post-encryption gater
checkpoint is consulted. -/
def encryptStageInbound (env : InboundEnv) (opts : UpgraderOpts) : Except Err (PeerId × String) × List Event :=
  if opts.skipEncryption then
    match env.remoteAddrPeerId with
    | none => (.error (.invalidMultiaddr "inbound connection that skipped encryption must have a peer id"), [])
    | some pid => (.ok (pid, "native"), [])
  else
    match _encryptInbound env.encryptRaw with
    | .error e => (.error e, [])
    | .ok pr =>
      match shouldBlockConnection env.gater.denyInboundEncryptedConnection Checkpoint.denyInboundEncryptedConnection with
      | (.error e, evs) => (.error e, evs)
      | (.ok _, evs) => (.ok pr, evs)

/-- The outbound encryption stage: skipping encryption requires a known
remote peer id (taken from the multiaddress) and records the protocol name
`native`; otherwise the connection is encrypted and the post-encryption
gater checkpoint is consulted. -/
def encryptStageOutbound (env : OutboundEnv) (opts : UpgraderOpts) : Except Err (PeerId × String) × List Event :=
  if opts.skipEncryption then
    match env.remoteAddrPeerId with
    | none => (.error (.invalidPeerId "Encryption was skipped but no peer id was passed"), [])
    | some pid => (.ok (pid, "native"), [])
  else
    match _encryptOutbound env.encryptRaw with
    | .error e => (.error e, [])
    | .ok pr =>
      match shouldBlockConnection env.gater.denyOutboundEncryptedConnection Checkpoint.denyOutboundEncryptedConnection with
      | (.error e, evs) => (.error e, evs)
      | (.ok _, evs) => (.ok pr, evs)

/-- Arguments of `_createConnection`. -/
structure CreateConnectionOptions where
  cryptoProtocol : String
  direction : Direction
  remotePeer : PeerId
  muxerFactory : Option String
  limits : Option Nat
deriving DecidableEq, Repr

/-- `_createConnection`: instantiate the muxer when a factory was selected,
set `multiplexer` from the muxer's protocol, build the public connection and
dispatch `connection:open`. -/
def _createConnection (o : CreateConnectionOptions) : Connection × List Event :=
  let muxer := o.muxerFactory.map fun p => ({ protocol := p, streams := [] } : Muxer)
  ({ remotePeer := o.remotePeer
     direction := o.direction
     encryption := o.cryptoProtocol
     multiplexer := Option.map Muxer.protocol muxer
     limits := o.limits
     muxer := muxer }, [Event.connectionOpen])

/-- The body of `upgradeInbound`'s `try` block: the pre-encryption gater
check, the protector, encryption (or its skip path), multiplexing and the
post-upgrade gater check, ending in `_createConnection`. -/
def upgradeInboundTry (env : InboundEnv) (opts : UpgraderOpts) : Except Err Connection × List Event :=
  match shouldBlockConnection env.gater.denyInboundConnection Checkpoint.denyInboundConnection with
  | (.error e, e1) => (.error e, e1)
  | (.ok _, e1) =>
    match protectStage opts.skipProtection env.protectorPresent env.protectResult with
    | .error e => (.error e, e1)
    | .ok _ =>
      match encryptStageInbound env opts with
      | (.error e, e2) => (.error e, e1 ++ e2)
      | (.ok (remotePeer, cryptoProtocol), e2) =>
        match muxStage env.muxers env.multiplexRaw opts.muxerFactory with
        | .error e => (.error e, e1 ++ e2)
        | .ok muxerFactory =>
          match shouldBlockConnection env.gater.denyInboundUpgradedConnection Checkpoint.denyInboundUpgradedConnection with
          | (.error e, e4) => (.error e, e1 ++ e2 ++ e4)
          | (.ok _, e4) =>
            match _createConnection
              { cryptoProtocol := cryptoProtocol
                direction := Direction.inbound
                remotePeer := remotePeer
                muxerFactory := muxerFactory
                limits := opts.limits } with
            | (conn, e5) => (.ok conn, e1 ++ e2 ++ e4 ++ e5)

/-- `upgradeInbound`: admission is checked before the `try` block — a denial
throws without reaching the `finally` — and the `finally` clause invokes
`connectionManager.afterUpgradeInbound()` on every path through the `try`. -/
def upgradeInbound (env : InboundEnv) (opts : UpgraderOpts) : Except Err Connection × List Event :=
  if env.accept then
    match upgradeInboundTry env opts with
    | (res, tr) =>
      (res, (Event.checkpoint Checkpoint.acceptIncomingConnection :: tr) ++ [Event.afterUpgradeInbound])
  else
    (.error .connectionDenied, [Event.checkpoint Checkpoint.acceptIncomingConnection])

/-- The pre-handshake outbound gater check: consulted only when the remote
multiaddress carries a peer id. -/
def outboundPreGate (env : OutboundEnv) : Except Err Unit × List Event :=
  match env.remoteAddrPeerId with
  | none => (.ok (), [])
  | some _ => shouldBlockConnection env.gater.denyOutboundConnection Checkpoint.denyOutboundConnection

/-- The body of `upgradeOutbound`'s `try` block: encryption (or its skip
path), the post-encryption gater check and multiplexing. -/
def outboundStage (env : OutboundEnv) (opts : UpgraderOpts) : Except Err (PeerId × String × Option String) × List Event :=
  match encryptStageOutbound env opts with
  | (.error e, e2) => (.error e, e2)
  | (.ok (remotePeer, cryptoProtocol), e2) =>
    match muxStage env.muxers env.multiplexRaw opts.muxerFactory with
    | .error e => (.error e, e2)
    | .ok mf => (.ok (remotePeer, cryptoProtocol, mf), e2)

/-- `upgradeOutbound`: the pre-handshake gater check and the protector run
outside the `try` block; a failure inside the `try` closes the underlying
connection with the failure as cause before rethrowing; the post-upgrade
gater check runs after the `catch`. -/
def upgradeOutbound (env : OutboundEnv) (opts : UpgraderOpts) : Except Err Connection × List Event :=
  match outboundPreGate env with
  | (.error e, e0) => (.error e, e0)
  | (.ok _, e0) =>
    match protectStage opts.skipProtection env.protectorPresent env.protectResult with
    | .error e => (.error e, e0)
    | .ok _ =>
      match outboundStage env opts with
      | (.error e, es) => (.error e, e0 ++ es ++ [Event.maConnClose (some e)])
      | (.ok (remotePeer, cryptoProtocol, muxerFactory), es) =>
        match shouldBlockConnection env.gater.denyOutboundUpgradedConnection Checkpoint.denyOutboundUpgradedConnection with
        | (.error e, e3) => (.error e, e0 ++ es ++ e3)
        | (.ok _, e3) =>
          match _createConnection
            { cryptoProtocol := cryptoProtocol
              direction := Direction.outbound
              remotePeer := remotePeer
              muxerFactory := muxerFactory
              limits := opts.limits } with
          | (conn, e5) => (.ok conn, e0 ++ es ++ e3 ++ e5)

/-- The body of the router callback `onIncomingStream` wired into the muxer:
multistream-select in responder mode, the per-protocol inbound cap check
(equality, against the not-yet-installed stream), protocol rebinding, the
peer-store merge and `_onStream`'s limited-connection guard and handler
dispatch.  The third component records whether the muxed stream's timeline
already holds a close time (set by `abort`), which the `catch` clause
consults. -/
def onIncomingStreamBody (registrar : Registrar) (connection : Connection) (handleRaw : Except String String) :
    Except Err (String × Nat) × List Event × Bool :=
  match handleRaw with
  | .error msg => (.error (.other msg), [], false)
  | .ok protocol =>
    let incomingLimit := findIncomingStreamLimit protocol registrar
    let streamCount := countStreams protocol Direction.inbound connection
    if incomingLimit = some streamCount then
      (.error (.tooManyInboundProtocolStreams protocol incomingLimit), [.streamAbort], true)
    else
      match registrar.getHandler protocol with
      | .error e => (.error e, [.peerStoreMerge protocol], false)
      | .ok entry =>
        if connection.limits ≠ none ∧ entry.options.runOnLimitedConnection ≠ some true then
          (.error (.limitedConnection "Cannot open protocol stream on limited connection"),
           [.peerStoreMerge protocol], false)
        else
          (.ok (protocol, entry.handlerId),
           [.peerStoreMerge protocol, .handlerInvoked protocol entry.handlerId], false)

/-- `onIncomingStream` with its `catch` clause: on any error the stream is
closed unless the muxer already closed it; errors never propagate to the
connection. -/
def onIncomingStream (registrar : Registrar) (connection : Connection) (handleRaw : Except String String) :
    Except Err (String × Nat) × List Event :=
  match onIncomingStreamBody registrar connection handleRaw with
  | (.ok r, evs, _) => (.ok r, evs)
  | (.error e, evs, closed) =>
    if closed then (.error e, evs) else (.error e, evs ++ [.streamClose])

/-- Sequential arrival of inbound muxed streams on one connection: each
delivered stream is installed in the muxer's live set (with its protocol
rebound) before the next stream is routed. -/
def processIncomingStreams (registrar : Registrar) (connection : Connection) (arrivals : List (Except String String)) :
    Connection × List (Except Err (String × Nat)) :=
  match arrivals with
  | [] => (connection, [])
  | a :: rest =>
    let p := onIncomingStream registrar connection a
    let connection2 :=
      match p.1, connection.muxer with
      | .ok (protocol, _), some m =>
        { connection with
          muxer := some { m with streams := m.streams ++
            [{ id := m.streams.length, direction := Direction.inbound
               protocol := some protocol, timelineClose := false }] } }
      | _, _ => connection
    let q := processIncomingStreams registrar connection2 rest
    (q.1, p.1 :: q.2)

/-- `newStream` on a connection: fails with `MuxerUnavailableError` when the
connection has no muxer; otherwise opens a muxed stream, selects a protocol
(`selectRaw` is the multistream-select outcome), enforces the outbound cap
with a greater-or-equal check, merges the peer store and returns the stream;
a cap breach aborts the freshly created muxed stream and raises. -/
def Connection.newStream (connection : Connection) (registrar : Registrar)
    (selectRaw : Except Err String) (options : NewStreamOptions) :
    Except Err (String × Nat) × List Event :=
  match connection.muxer with
  | none => (.error (.muxerUnavailable "Connection is not multiplexed"), [])
  | some muxer =>
    let streamId := muxer.streams.length
    match selectRaw with
    | .error e => (.error e, [.streamAbort])
    | .ok protocol =>
      let outgoingLimit := findOutgoingStreamLimit protocol registrar options
      let streamCount := countStreams protocol Direction.outbound connection
      if streamCount ≥ outgoingLimit then
        (.error (.tooManyOutboundProtocolStreams protocol streamCount outgoingLimit), [.streamAbort])
      else
        (.ok (protocol, streamId), [.peerStoreMerge protocol])

/-- Outcomes of the collaborator calls `TCP.dial` suspends on:
`connectResult` is `_connect`'s outcome, `signalAborted` whether
`options.signal` (when present) has fired by the time the upgrade returns,
`upgradeResult` the outcome of `upgrader.upgradeOutbound`. -/
structure DialEnv where
  connectResult : Except Err Unit
  signalPresent : Bool
  signalAborted : Bool
  upgradeResult : Except Err Connection
deriving Repr

/-- `TCP.dial` from the transport source: connect, upgrade, and — when the
caller's signal has fired by the time the upgrade completes — initiate a
close of the upgraded connection and throw `AbortError` instead of
returning it. -/
def tcpDial (env : DialEnv) : Except Err Connection × List Event :=
  match env.connectResult with
  | .error e => (.error e, [])
  | .ok _ =>
    match env.upgradeResult with
    | .error e => (.error e, [])
    | .ok conn =>
      if env.signalPresent && env.signalAborted then
        (.error .aborted, [.connClose])
      else
        (.ok conn, [])

/-- C1's claim as stated, instantiated at an inbound upgrade: whether the
call returns or throws, `afterUpgradeInbound` is invoked exactly once. -/
def claimAfterUpgradeInboundAllPaths (env : InboundEnv) (opts : UpgraderOpts) : Prop :=
  countAfterUpgradeInbound (upgradeInbound env opts).2 = 1

/-- `true` when an upgrade result is a thrown error. -/
def isErrResult : Except Err Connection → Bool
  | .error _ => true
  | .ok _ => false

/-- C5's claim as stated, instantiated at an inbound upgrade: whenever the
upgrade throws, the upgrader has closed the underlying `MultiaddrConnection`
before the error reaches the caller. -/
def claimUpgradeFailureClosesMaConn (env : InboundEnv) (opts : UpgraderOpts) : Prop :=
  isErrResult (upgradeInbound env opts).1 = true →
    (upgradeInbound env opts).2.any Event.isMaConnClose = true

/-- A gater with every method present and allowing. -/
def gaterAllow : Gater :=
  { denyInboundConnection := some false
    denyInboundEncryptedConnection := some false
    denyInboundUpgradedConnection := some false
    denyOutboundConnection := some false
    denyOutboundEncryptedConnection := some false
    denyOutboundUpgradedConnection := some false }

/-- A gater denying at the post-encryption inbound checkpoint. -/
def gaterDenyInboundEncrypted : Gater :=
  { gaterAllow with denyInboundEncryptedConnection := some true }

def optsPlain : UpgraderOpts :=
  { skipProtection := false, skipEncryption := false, muxerFactory := none, limits := none }

def optsSkipEncryption : UpgraderOpts :=
  { optsPlain with skipEncryption := true }

def noisePeer : PeerId := { pid := 1 }

/-- A scripted peer driving a fully successful inbound upgrade. -/
def envInboundOk : InboundEnv :=
  { accept := true
    gater := gaterAllow
    protectorPresent := false
    protectResult := none
    encryptRaw := .ok (noisePeer, "/noise")
    remoteAddrPeerId := none
    muxers := ["/yamux/1.0.0"]
    multiplexRaw := .ok "/yamux/1.0.0" }

def envInboundDenied : InboundEnv := { envInboundOk with accept := false }

def envInboundEncryptFail : InboundEnv := { envInboundOk with encryptRaw := .error "handshake failed" }

def envInboundGaterDeniesEncrypted : InboundEnv := { envInboundOk with gater := gaterDenyInboundEncrypted }

def envInboundSkipWithPeer : InboundEnv := { envInboundOk with remoteAddrPeerId := some { pid := 9 } }

def envOutboundOk : OutboundEnv :=
  { gater := gaterAllow
    protectorPresent := false
    protectResult := none
    encryptRaw := .ok (noisePeer, "/noise")
    remoteAddrPeerId := some { pid := 2 }
    muxers := ["/yamux/1.0.0"]
    multiplexRaw := .ok "/yamux/1.0.0" }

def envOutboundEncryptFail : OutboundEnv := { envOutboundOk with encryptRaw := .error "handshake failed" }

def envOutboundSkipNoPeer : OutboundEnv := { envOutboundOk with remoteAddrPeerId := none }

def echoOptions : HandlerOptions :=
  { maxInboundStreams := some 2, maxOutboundStreams := none, runOnLimitedConnection := none }

/-- Registrar of scenario S4: `/echo/1.0.0` with `maxInboundStreams = 2`. -/
def echoRegistrar : Registrar :=
  { handlers := [("/echo/1.0.0", { handlerId := 7, options := echoOptions })] }

/-- Registrar of scenario S6: `/ping/1.0.0` without `runOnLimitedConnection`,
`/identify/1.0.0` with it. -/
def pingRegistrar : Registrar :=
  { handlers :=
      [("/ping/1.0.0",
        { handlerId := 3
          options := { maxInboundStreams := none, maxOutboundStreams := none, runOnLimitedConnection := none } }),
       ("/identify/1.0.0",
        { handlerId := 4
          options := { maxInboundStreams := none, maxOutboundStreams := none, runOnLimitedConnection := some true } })] }

/-- Registrar with an outbound cap of 1 on `/kad/1.0.0`. -/
def kadRegistrar : Registrar :=
  { handlers :=
      [("/kad/1.0.0",
        { handlerId := 2
          options := { maxInboundStreams := none, maxOutboundStreams := some 1, runOnLimitedConnection := none } })] }

def yamuxMuxer : Muxer := { protocol := "/yamux/1.0.0", streams := [] }

def plainConn : Connection :=
  { remotePeer := noisePeer, direction := Direction.inbound, encryption := "/noise"
    multiplexer := some "/yamux/1.0.0", limits := none, muxer := some yamuxMuxer }

def limitedConn : Connection := { plainConn with limits := some 1024 }

/-- A connection already carrying one outbound `/kad/1.0.0` stream. -/
def kadConn : Connection :=
  { plainConn with
    muxer := some { yamuxMuxer with streams :=
      [{ id := 0, direction := Direction.outbound, protocol := some "/kad/1.0.0", timelineClose := false }] } }

def connNoMuxOpts : CreateConnectionOptions :=
  { cryptoProtocol := "/noise", direction := Direction.inbound
    remotePeer := noisePeer, muxerFactory := none, limits := none }

/-- A dial whose signal has fired by the time the upgrade returned. -/
def dialEnvAborted : DialEnv :=
  { connectResult := .ok (), signalPresent := true, signalAborted := true, upgradeResult := .ok plainConn }


/-- The order in which the four inbound gating checkpoints are consulted. -/
def canonicalInboundCheckpoints : List Checkpoint :=
  [Checkpoint.acceptIncomingConnection, Checkpoint.denyInboundConnection,
   Checkpoint.denyInboundEncryptedConnection, Checkpoint.denyInboundUpgradedConnection]

/-- `true` when a routing outcome is a too-many-inbound-streams abort. -/
def resultTooManyInbound : Except Err (String × Nat) → Bool
  | .error (.tooManyInboundProtocolStreams _ _) => true
  | _ => false

/-- A connection already carrying two inbound `/echo/1.0.0` streams. -/
def echoConnTwo : Connection :=
  { plainConn with muxer := some { yamuxMuxer with streams :=
      [{ id := 0, direction := Direction.inbound, protocol := some "/echo/1.0.0", timelineClose := false },
       { id := 1, direction := Direction.inbound, protocol := some "/echo/1.0.0", timelineClose := false }] } }

/-- Errors that upgrade stages other than gating can produce; none of them is
a gater interception or an admission denial. -/
def Err.isOpaqueStageFailure : Err → Bool
  | .invalidMultiaddr _ => true
  | .invalidPeerId _ => true
  | .encryptionFailed _ => true
  | .muxerUnavailable _ => true
  | .other _ => true
  | _ => false

theorem shouldBlock_spec (m : Option Bool) (cp : Checkpoint) :
    shouldBlockConnection m cp = (.ok (), [])
    ∨ shouldBlockConnection m cp = (.ok (), [Event.checkpoint cp])
    ∨ shouldBlockConnection m cp = (.error (.connectionIntercepted cp), [Event.checkpoint cp]) := by
  cases m with
  | none => exact Or.inl rfl
  | some b => cases b with
    | false => exact Or.inr (Or.inl rfl)
    | true => exact Or.inr (Or.inr rfl)

theorem shouldBlock_present (b : Bool) (cp : Checkpoint) :
    shouldBlockConnection (some b) cp = (.ok (), [Event.checkpoint cp])
    ∨ shouldBlockConnection (some b) cp = (.error (.connectionIntercepted cp), [Event.checkpoint cp]) := by
  cases b with
  | false => exact Or.inl rfl
  | true => exact Or.inr rfl

theorem protectStage_spec (sp pp : Bool) (pr : Option String) :
    protectStage sp pp pr = .ok ()
    ∨ ∃ e, protectStage sp pp pr = .error e ∧ e.isOpaqueStageFailure = true := by
  unfold protectStage
  split
  · exact Or.inl rfl
  · split
    · cases pr with
      | none => exact Or.inl rfl
      | some msg => exact Or.inr ⟨.other msg, rfl, rfl⟩
    · exact Or.inl rfl

theorem muxStage_spec (muxers : List String) (raw : Except String String) (optFactory : Option String) :
    (∃ mf, muxStage muxers raw optFactory = .ok mf)
    ∨ ∃ e, muxStage muxers raw optFactory = .error e ∧ e.isOpaqueStageFailure = true := by
  cases optFactory with
  | some f => exact Or.inl ⟨some f, rfl⟩
  | none =>
    by_cases he : muxers.isEmpty = true
    · exact Or.inl ⟨none, by simp [muxStage, he]⟩
    · cases raw with
      | error msg =>
        exact Or.inr ⟨.muxerUnavailable msg, by simp [muxStage, he], rfl⟩
      | ok p =>
        exact Or.inl ⟨if muxers.contains p = true then some p else none, by simp [muxStage, he]⟩

theorem _encryptInbound_error (raw : Except String (PeerId × String)) (e : Err)
    (h : _encryptInbound raw = .error e) : ∃ msg, e = Err.encryptionFailed msg := by
  cases raw with
  | ok r => simp [_encryptInbound] at h
  | error m =>
    simp [_encryptInbound] at h
    exact ⟨m, h.symm⟩

theorem _encryptOutbound_error (raw : Except String (PeerId × String)) (e : Err)
    (h : _encryptOutbound raw = .error e) : ∃ msg, e = Err.encryptionFailed msg := by
  cases raw with
  | ok r => simp [_encryptOutbound] at h
  | error m =>
    simp [_encryptOutbound] at h
    exact ⟨m, h.symm⟩

theorem encryptStageInbound_spec (env : InboundEnv) (opts : UpgraderOpts) :
    (∃ pr, encryptStageInbound env opts = (.ok pr, [])
        ∨ encryptStageInbound env opts = (.ok pr, [Event.checkpoint Checkpoint.denyInboundEncryptedConnection]))
    ∨ encryptStageInbound env opts =
        (.error (.connectionIntercepted Checkpoint.denyInboundEncryptedConnection),
         [Event.checkpoint Checkpoint.denyInboundEncryptedConnection])
    ∨ (∃ e, encryptStageInbound env opts = (.error e, []) ∧ e.isOpaqueStageFailure = true) := by
  unfold encryptStageInbound
  by_cases hse : opts.skipEncryption = true
  · rw [if_pos hse]
    cases env.remoteAddrPeerId with
    | none => exact Or.inr (Or.inr ⟨_, rfl, rfl⟩)
    | some pid => exact Or.inl ⟨_, Or.inl rfl⟩
  · rw [if_neg hse]
    cases henc : _encryptInbound env.encryptRaw with
    | error e2 =>
      obtain ⟨msg, hm⟩ := _encryptInbound_error env.encryptRaw e2 henc
      refine Or.inr (Or.inr ⟨e2, rfl, ?_⟩)
      rw [hm]
      rfl
    | ok pr =>
      rcases shouldBlock_spec env.gater.denyInboundEncryptedConnection
        Checkpoint.denyInboundEncryptedConnection with h | h | h <;> rw [h]
      · exact Or.inl ⟨pr, Or.inl rfl⟩
      · exact Or.inl ⟨pr, Or.inr rfl⟩
      · exact Or.inr (Or.inl rfl)

theorem encryptStageOutbound_spec (env : OutboundEnv) (opts : UpgraderOpts) :
    (∃ pr, encryptStageOutbound env opts = (.ok pr, [])
        ∨ encryptStageOutbound env opts = (.ok pr, [Event.checkpoint Checkpoint.denyOutboundEncryptedConnection]))
    ∨ encryptStageOutbound env opts =
        (.error (.connectionIntercepted Checkpoint.denyOutboundEncryptedConnection),
         [Event.checkpoint Checkpoint.denyOutboundEncryptedConnection])
    ∨ (∃ e, encryptStageOutbound env opts = (.error e, []) ∧ e.isOpaqueStageFailure = true) := by
  unfold encryptStageOutbound
  by_cases hse : opts.skipEncryption = true
  · rw [if_pos hse]
    cases env.remoteAddrPeerId with
    | none => exact Or.inr (Or.inr ⟨_, rfl, rfl⟩)
    | some pid => exact Or.inl ⟨_, Or.inl rfl⟩
  · rw [if_neg hse]
    cases henc : _encryptOutbound env.encryptRaw with
    | error e2 =>
      obtain ⟨msg, hm⟩ := _encryptOutbound_error env.encryptRaw e2 henc
      refine Or.inr (Or.inr ⟨e2, rfl, ?_⟩)
      rw [hm]
      rfl
    | ok pr =>
      rcases shouldBlock_spec env.gater.denyOutboundEncryptedConnection
        Checkpoint.denyOutboundEncryptedConnection with h | h | h <;> rw [h]
      · exact Or.inl ⟨pr, Or.inl rfl⟩
      · exact Or.inl ⟨pr, Or.inr rfl⟩
      · exact Or.inr (Or.inl rfl)

theorem upgradeInboundTry_trace (env : InboundEnv) (opts : UpgraderOpts) :
    ((upgradeInboundTry env opts).2.all Event.isUpgradePhase = true)
    ∧ (checkpointsOf (upgradeInboundTry env opts).2).Sublist
        [Checkpoint.denyInboundConnection, Checkpoint.denyInboundEncryptedConnection,
         Checkpoint.denyInboundUpgradedConnection]
    ∧ (∀ cp, (upgradeInboundTry env opts).1 = .error (.connectionIntercepted cp) →
        (checkpointsOf (upgradeInboundTry env opts).2).getLast? = some cp)
    ∧ ((upgradeInboundTry env opts).1 ≠ .error .connectionDenied) := by
  unfold upgradeInboundTry
  rcases shouldBlock_spec env.gater.denyInboundConnection Checkpoint.denyInboundConnection
    with h1 | h1 | h1 <;> rw [h1] <;>
  rcases protectStage_spec opts.skipProtection env.protectorPresent env.protectResult
    with h2 | ⟨e2, h2, hf2⟩ <;> rw [h2] <;>
  rcases encryptStageInbound_spec env opts
    with ⟨pr3, h3 | h3⟩ | h3 | ⟨e3, h3, hf3⟩ <;> rw [h3] <;>
  rcases muxStage_spec env.muxers env.multiplexRaw opts.muxerFactory
    with ⟨mf4, h4⟩ | ⟨e4, h4, hf4⟩ <;> rw [h4] <;>
  rcases shouldBlock_spec env.gater.denyInboundUpgradedConnection Checkpoint.denyInboundUpgradedConnection
    with h5 | h5 | h5 <;> rw [h5]
  all_goals dsimp only [_createConnection]
  all_goals refine ⟨?_, ?_, ?_, ?_⟩
  all_goals first
  | decide
  | (intro cp h; simp at h; done)
  | (intro cp h; simp at h; subst h; decide)
  | (intro cp h; simp at h; rw [h] at hf2; simp [Err.isOpaqueStageFailure] at hf2; done)
  | (intro cp h; simp at h; rw [h] at hf3; simp [Err.isOpaqueStageFailure] at hf3; done)
  | (intro cp h; simp at h; rw [h] at hf4; simp [Err.isOpaqueStageFailure] at hf4; done)
  | (simp; done)
  | (intro hc; simp at hc; rw [hc] at hf2; simp [Err.isOpaqueStageFailure] at hf2; done)
  | (intro hc; simp at hc; rw [hc] at hf3; simp [Err.isOpaqueStageFailure] at hf3; done)
  | (intro hc; simp at hc; rw [hc] at hf4; simp [Err.isOpaqueStageFailure] at hf4; done)

theorem countAfter_eq_zero_of_phase (l : List Event) (h : l.all Event.isUpgradePhase = true) :
    countAfterUpgradeInbound l = 0 := by
  induction l with
  | nil => rfl
  | cons a t ih =>
    rw [List.all_cons, Bool.and_eq_true] at h
    have ha : ¬ (a = Event.afterUpgradeInbound) := by
      intro he
      subst he
      simp [Event.isUpgradePhase] at h
    have ht := ih h.2
    simp only [countAfterUpgradeInbound, List.filter_cons] at ht ⊢
    simp [ha, ht]

theorem not_maConnClose_of_phase (e : Event) (h : e.isUpgradePhase = true) :
    e.isMaConnClose = false := by
  cases e <;> simp_all [Event.isUpgradePhase, Event.isMaConnClose]

theorem all_not_maConnClose_of_phase (l : List Event) (h : l.all Event.isUpgradePhase = true) :
    l.all (fun ev => !ev.isMaConnClose) = true := by
  rw [List.all_eq_true] at h ⊢
  intro e he
  have := not_maConnClose_of_phase e (h e he)
  simp [this]

theorem checkpointsOf_append (l1 l2 : List Event) :
    checkpointsOf (l1 ++ l2) = checkpointsOf l1 ++ checkpointsOf l2 := by
  simp [checkpointsOf]

theorem getLast?_cons_of_some (a x : Checkpoint) (l : List Checkpoint) (h : l.getLast? = some x) :
    (a :: l).getLast? = some x := by
  cases l with
  | nil => simp at h
  | cons b t => rw [List.getLast?_cons_cons]; exact h

/-- C1 counterexample: when `connectionManager.acceptIncomingConnection`
denies admission, `upgradeInbound` throws `ConnectionDeniedError` before
entering the `try`/`finally`, so `afterUpgradeInbound()` is never invoked —
the claim that it is invoked exactly once on every path, including admission
denial, is false. -/
theorem c1_counterexample :
    ¬ claimAfterUpgradeInboundAllPaths envInboundDenied optsPlain := by
  unfold claimAfterUpgradeInboundAllPaths
  decide

/-- C1 (amended): on every `upgradeInbound` call in which admission is
granted (`acceptIncomingConnection` returned `true`),
`connectionManager.afterUpgradeInbound()` is invoked exactly once before the
call completes, whether the upgrade returns a connection or throws; on
admission denial it is not invoked at all. -/
theorem c1_afterUpgradeInbound_once_when_admitted (env : InboundEnv) (opts : UpgraderOpts)
    (h : env.accept = true) :
    countAfterUpgradeInbound (upgradeInbound env opts).2 = 1 := by
  unfold upgradeInbound
  rw [if_pos h]
  cases htr : upgradeInboundTry env opts with
  | mk res tr =>
    have hph := (upgradeInboundTry_trace env opts).1
    rw [htr] at hph
    dsimp only at hph
    have h0 := countAfter_eq_zero_of_phase tr hph
    simp only [countAfterUpgradeInbound, List.filter_append, List.filter_cons,
      List.length_append] at h0 ⊢
    simp_all [countAfterUpgradeInbound]

theorem c1_afterUpgradeInbound_once_when_admitted_witness :
    envInboundOk.accept = true
    ∧ countAfterUpgradeInbound (upgradeInbound envInboundOk optsPlain).2 = 1 :=
  ⟨rfl, c1_afterUpgradeInbound_once_when_admitted envInboundOk optsPlain rfl⟩

/-- C2: during every inbound upgrade the gating checkpoints are invoked in
the order `acceptIncomingConnection`, `denyInboundConnection`,
`denyInboundEncryptedConnection`, `denyInboundUpgradedConnection` (each at
most once, some possibly skipped when a gater method is absent or encryption
is skipped): the invoked checkpoints always form a subsequence of that
canonical order, `acceptIncomingConnection` is always first, a denying
checkpoint is the last one invoked (no subsequent checkpoint runs), and an
admission denial stops the upgrade with only `acceptIncomingConnection`
having run. -/
theorem c2_inbound_gating_order (env : InboundEnv) (opts : UpgraderOpts) :
    (checkpointsOf (upgradeInbound env opts).2).head? = some Checkpoint.acceptIncomingConnection
    ∧ (checkpointsOf (upgradeInbound env opts).2).Sublist canonicalInboundCheckpoints
    ∧ (∀ cp, (upgradeInbound env opts).1 = .error (.connectionIntercepted cp) →
        (checkpointsOf (upgradeInbound env opts).2).getLast? = some cp)
    ∧ ((upgradeInbound env opts).1 = .error .connectionDenied →
        checkpointsOf (upgradeInbound env opts).2 = [Checkpoint.acceptIncomingConnection]) := by
  unfold upgradeInbound
  by_cases ha : env.accept = true
  · rw [if_pos ha]
    cases htr : upgradeInboundTry env opts with
    | mk res tr =>
      obtain ⟨-, hsub, hlast, hden⟩ := upgradeInboundTry_trace env opts
      rw [htr] at hsub hlast hden
      dsimp only at hsub hlast hden ⊢
      have e1 : checkpointsOf ((Event.checkpoint Checkpoint.acceptIncomingConnection :: tr)
          ++ [Event.afterUpgradeInbound])
          = Checkpoint.acceptIncomingConnection :: checkpointsOf tr := by
        simp [checkpointsOf, Event.checkpointOf]
      rw [e1]
      refine ⟨rfl, ?_, ?_, ?_⟩
      · exact List.Sublist.cons₂ _ hsub
      · intro cp hcp
        exact getLast?_cons_of_some _ cp (checkpointsOf tr) (hlast cp hcp)
      · intro hd
        exact absurd hd hden
  · rw [if_neg ha]
    refine ⟨rfl, by decide, ?_, ?_⟩
    · intro cp hcp
      simp at hcp
    · intro hd
      rfl

theorem c2_inbound_gating_order_witness :
    (checkpointsOf (upgradeInbound envInboundGaterDeniesEncrypted optsPlain).2).getLast?
      = some Checkpoint.denyInboundEncryptedConnection :=
  (c2_inbound_gating_order envInboundGaterDeniesEncrypted optsPlain).2.2.1
    Checkpoint.denyInboundEncryptedConnection (by rfl)

/-- C5 counterexample: an inbound upgrade whose encryption stage fails
throws to the caller without the upgrader ever closing the underlying
`MultiaddrConnection`, so the claim that every failed upgrade closes the
connection before the error reaches the caller is false. -/
theorem c5_counterexample :
    ¬ claimUpgradeFailureClosesMaConn envInboundEncryptFail optsPlain := by
  unfold claimUpgradeFailureClosesMaConn
  decide

/-- C5 (amended): only `upgradeOutbound` closes the underlying connection on
failure, and only for failures of its encryption/multiplex `try` block,
where `maConn.close(err)` is passed the failure as cause before the error is
rethrown; `upgradeInbound` never closes the underlying connection itself —
failed inbound connections are left to the caller. -/
theorem c5_outbound_close_with_cause :
    (∀ (env : OutboundEnv) (opts : UpgraderOpts) (e : Err),
      (outboundPreGate env).1 = .ok () →
      protectStage opts.skipProtection env.protectorPresent env.protectResult = .ok () →
      (outboundStage env opts).1 = .error e →
      (upgradeOutbound env opts).1 = .error e
        ∧ Event.maConnClose (some e) ∈ (upgradeOutbound env opts).2)
    ∧ (∀ (env : InboundEnv) (opts : UpgraderOpts),
        (upgradeInbound env opts).2.all (fun ev => !ev.isMaConnClose) = true) := by
  constructor
  · intro env opts e h0 hp hs
    unfold upgradeOutbound
    cases hq : outboundPreGate env with
    | mk q0 e0 =>
      rw [hq] at h0
      dsimp only at h0
      subst h0
      rw [hp]
      cases hps : outboundStage env opts with
      | mk s0 es =>
        rw [hps] at hs
        dsimp only at hs
        subst hs
        exact ⟨rfl, by simp⟩
  · intro env opts
    unfold upgradeInbound
    by_cases ha : env.accept = true
    · rw [if_pos ha]
      cases htr : upgradeInboundTry env opts with
      | mk res tr =>
        have hph := (upgradeInboundTry_trace env opts).1
        rw [htr] at hph
        dsimp only at hph ⊢
        have hall := all_not_maConnClose_of_phase tr hph
        rw [List.all_eq_true] at hall
        simp [List.all_append, List.all_cons, Event.isMaConnClose]
        intro x hx
        have hb := hall x hx
        cases x <;> simp_all [Event.isMaConnClose]
    · rw [if_neg ha]
      rfl

theorem c5_outbound_close_with_cause_witness :
    (upgradeOutbound envOutboundEncryptFail optsPlain).1
        = .error (.encryptionFailed "handshake failed")
    ∧ Event.maConnClose (some (.encryptionFailed "handshake failed"))
        ∈ (upgradeOutbound envOutboundEncryptFail optsPlain).2 :=
  c5_outbound_close_with_cause.1 envOutboundEncryptFail optsPlain
    (.encryptionFailed "handshake failed") (by rfl) (by rfl) (by rfl)

/-- C6: when encryption is skipped, an inbound upgrade whose remote
multiaddress carries no peer id fails with an invalid-multiaddress error; an
outbound upgrade with no peer id embedded in the multiaddress fails with an
invalid-peer-id error; and when the peer id is available the upgrade
proceeds with the crypto protocol recorded as the literal string `native`
and that peer id as the connection's remote peer. -/
theorem c6_skip_encryption_peer_id :
    (∀ (env : InboundEnv) (opts : UpgraderOpts),
      env.accept = true →
      (shouldBlockConnection env.gater.denyInboundConnection Checkpoint.denyInboundConnection).1 = .ok () →
      protectStage opts.skipProtection env.protectorPresent env.protectResult = .ok () →
      opts.skipEncryption = true →
      env.remoteAddrPeerId = none →
      (upgradeInbound env opts).1 =
        .error (.invalidMultiaddr "inbound connection that skipped encryption must have a peer id"))
    ∧ (∀ (env : OutboundEnv) (opts : UpgraderOpts),
      protectStage opts.skipProtection env.protectorPresent env.protectResult = .ok () →
      opts.skipEncryption = true →
      env.remoteAddrPeerId = none →
      (upgradeOutbound env opts).1 =
        .error (.invalidPeerId "Encryption was skipped but no peer id was passed"))
    ∧ (∀ (env : InboundEnv) (opts : UpgraderOpts) (pid : PeerId) (conn : Connection),
      opts.skipEncryption = true →
      env.remoteAddrPeerId = some pid →
      (upgradeInbound env opts).1 = .ok conn →
      conn.encryption = "native" ∧ conn.remotePeer = pid)
    ∧ (∀ (env : OutboundEnv) (opts : UpgraderOpts) (pid : PeerId) (conn : Connection),
      opts.skipEncryption = true →
      env.remoteAddrPeerId = some pid →
      (upgradeOutbound env opts).1 = .ok conn →
      conn.encryption = "native" ∧ conn.remotePeer = pid) := by
  refine ⟨?_, ?_, ?_, ?_⟩
  · intro env opts ha hg hp hse hpid
    unfold upgradeInbound
    rw [if_pos ha]
    unfold upgradeInboundTry
    cases hsb : shouldBlockConnection env.gater.denyInboundConnection Checkpoint.denyInboundConnection with
    | mk g1 e1 =>
      rw [hsb] at hg
      dsimp only at hg
      subst hg
      rw [hp]
      have he : encryptStageInbound env opts =
          (.error (.invalidMultiaddr "inbound connection that skipped encryption must have a peer id"), []) := by
        simp [encryptStageInbound, hse, hpid]
      rw [he]
  · intro env opts hp hse hpid
    unfold upgradeOutbound
    have h0 : outboundPreGate env = (.ok (), []) := by
      simp [outboundPreGate, hpid]
    rw [h0, hp]
    unfold outboundStage
    have he : encryptStageOutbound env opts =
        (.error (.invalidPeerId "Encryption was skipped but no peer id was passed"), []) := by
      simp [encryptStageOutbound, hse, hpid]
    rw [he]
  · intro env opts pid conn hse hpid hok
    unfold upgradeInbound at hok
    by_cases ha : env.accept = true
    · rw [if_pos ha] at hok
      unfold upgradeInboundTry at hok
      have he : encryptStageInbound env opts = (.ok (pid, "native"), []) := by
        simp [encryptStageInbound, hse, hpid]
      rw [he] at hok
      rcases shouldBlock_spec env.gater.denyInboundConnection Checkpoint.denyInboundConnection
        with h1 | h1 | h1 <;> rw [h1] at hok <;>
      rcases protectStage_spec opts.skipProtection env.protectorPresent env.protectResult
        with h2 | ⟨e2, h2, hf2⟩ <;> rw [h2] at hok <;>
      rcases muxStage_spec env.muxers env.multiplexRaw opts.muxerFactory
        with ⟨mf4, h4⟩ | ⟨e4, h4, hf4⟩ <;> rw [h4] at hok <;>
      rcases shouldBlock_spec env.gater.denyInboundUpgradedConnection Checkpoint.denyInboundUpgradedConnection
        with h5 | h5 | h5 <;> rw [h5] at hok <;>
      dsimp only [_createConnection] at hok
      all_goals first
      | (simp at hok; done)
      | (injection hok with hok2; subst hok2; exact ⟨rfl, rfl⟩)
    · rw [if_neg ha] at hok
      simp at hok
  · intro env opts pid conn hse hpid hok
    unfold upgradeOutbound at hok
    have hpre : outboundPreGate env
        = shouldBlockConnection env.gater.denyOutboundConnection Checkpoint.denyOutboundConnection := by
      simp [outboundPreGate, hpid]
    rw [hpre] at hok
    unfold outboundStage at hok
    have he : encryptStageOutbound env opts = (.ok (pid, "native"), []) := by
      simp [encryptStageOutbound, hse, hpid]
    rw [he] at hok
    rcases shouldBlock_spec env.gater.denyOutboundConnection Checkpoint.denyOutboundConnection
      with h1 | h1 | h1 <;> rw [h1] at hok <;>
    rcases protectStage_spec opts.skipProtection env.protectorPresent env.protectResult
      with h2 | ⟨e2, h2, hf2⟩ <;> rw [h2] at hok <;>
    rcases muxStage_spec env.muxers env.multiplexRaw opts.muxerFactory
      with ⟨mf4, h4⟩ | ⟨e4, h4, hf4⟩ <;> rw [h4] at hok <;>
    rcases shouldBlock_spec env.gater.denyOutboundUpgradedConnection Checkpoint.denyOutboundUpgradedConnection
      with h5 | h5 | h5 <;> rw [h5] at hok <;>
    dsimp only [_createConnection] at hok
    all_goals first
    | (simp at hok; done)
    | (injection hok with hok2; subst hok2; exact ⟨rfl, rfl⟩)

theorem c6_skip_encryption_peer_id_witness :
    (upgradeInbound envInboundOk optsSkipEncryption).1 =
      .error (.invalidMultiaddr "inbound connection that skipped encryption must have a peer id")
    ∧ (upgradeOutbound envOutboundSkipNoPeer optsSkipEncryption).1 =
      .error (.invalidPeerId "Encryption was skipped but no peer id was passed") :=
  ⟨c6_skip_encryption_peer_id.1 envInboundOk optsSkipEncryption rfl rfl rfl rfl rfl,
   c6_skip_encryption_peer_id.2.1 envOutboundSkipNoPeer optsSkipEncryption rfl rfl rfl⟩

/-- C3: for an inbound muxed stream negotiating protocol `P` whose handler is
registered with `maxInboundStreams = L` on a non-limited connection: when the
count of already-installed inbound `P` streams equals `L` the stream is
aborted with `TooManyInboundProtocolStreams` and the handler is never
invoked; when the count is below `L` the stream is delivered to the handler;
concretely, with `maxInboundStreams = 2` the first two of three sequential
`/echo/1.0.0` streams reach the handler and the third is aborted. -/
theorem c3_inbound_stream_cap :
    (∀ (r : Registrar) (conn : Connection) (P : String) (entry : RegistrarEntry) (L : Nat),
      r.getHandler P = .ok entry →
      entry.options.maxInboundStreams = some L →
      conn.limits = none →
      ((countStreams P Direction.inbound conn = L →
          (onIncomingStream r conn (.ok P)).1 = .error (.tooManyInboundProtocolStreams P (some L))
          ∧ Event.streamAbort ∈ (onIncomingStream r conn (.ok P)).2
          ∧ (onIncomingStream r conn (.ok P)).2.all (fun ev => !ev.isHandlerInvoked) = true)
        ∧ (countStreams P Direction.inbound conn < L →
          (onIncomingStream r conn (.ok P)).1 = .ok (P, entry.handlerId)
          ∧ Event.handlerInvoked P entry.handlerId ∈ (onIncomingStream r conn (.ok P)).2)))
    ∧ ((processIncomingStreams echoRegistrar plainConn
          [.ok "/echo/1.0.0", .ok "/echo/1.0.0", .ok "/echo/1.0.0"]).2 =
        [.ok ("/echo/1.0.0", 7), .ok ("/echo/1.0.0", 7),
         .error (.tooManyInboundProtocolStreams "/echo/1.0.0" (some 2))]) := by
  constructor
  · intro r conn P entry L hget hmax hlim
    have hfind : findIncomingStreamLimit P r = some L := by
      simp [findIncomingStreamLimit, hget, hmax]
    constructor
    · intro hc
      unfold onIncomingStream onIncomingStreamBody
      dsimp only
      rw [if_pos (by rw [hfind, hc])]
      exact ⟨by simp [hfind], by simp, by simp [Event.isHandlerInvoked]⟩
    · intro hc
      unfold onIncomingStream onIncomingStreamBody
      dsimp only
      rw [if_neg (by rw [hfind]; simp; omega), hget]
      dsimp only
      rw [if_neg (fun hcon => hcon.1 hlim)]
      exact ⟨rfl, by simp⟩
  · rfl

theorem c3_inbound_stream_cap_witness :
    (onIncomingStream echoRegistrar echoConnTwo (.ok "/echo/1.0.0")).1
        = .error (.tooManyInboundProtocolStreams "/echo/1.0.0" (some 2))
    ∧ Event.streamAbort ∈ (onIncomingStream echoRegistrar echoConnTwo (.ok "/echo/1.0.0")).2
    ∧ (onIncomingStream echoRegistrar echoConnTwo (.ok "/echo/1.0.0")).2.all
        (fun ev => !ev.isHandlerInvoked) = true :=
  (c3_inbound_stream_cap.1 echoRegistrar echoConnTwo "/echo/1.0.0"
    { handlerId := 7, options := echoOptions } 2 rfl rfl rfl).1 rfl

/-- C4: `newStream`'s outbound limit resolution follows the precedence
"registrar handler's `maxOutboundStreams` if set, else the caller's
`maxOutboundStreams` option, else `DEFAULT_MAX_OUTBOUND_STREAMS`", and when
the count of existing outbound streams for the negotiated protocol is
greater than or equal to that limit the freshly created muxed stream is
aborted with `TooManyOutboundProtocolStreams` and the error is raised to the
caller. -/
theorem c4_outbound_stream_cap :
    (∀ (r : Registrar) (P : String) (entry : RegistrarEntry) (n : Nat) (o : NewStreamOptions),
      r.getHandler P = .ok entry → entry.options.maxOutboundStreams = some n →
      findOutgoingStreamLimit P r o = n)
    ∧ (∀ (r : Registrar) (P : String) (entry : RegistrarEntry) (k : Nat) (o : NewStreamOptions),
      r.getHandler P = .ok entry → entry.options.maxOutboundStreams = none →
      o.maxOutboundStreams = some k → findOutgoingStreamLimit P r o = k)
    ∧ (∀ (r : Registrar) (P : String) (entry : RegistrarEntry) (o : NewStreamOptions),
      r.getHandler P = .ok entry → entry.options.maxOutboundStreams = none →
      o.maxOutboundStreams = none → findOutgoingStreamLimit P r o = DEFAULT_MAX_OUTBOUND_STREAMS)
    ∧ (∀ (r : Registrar) (P : String) (e : Err) (o : NewStreamOptions),
      r.getHandler P = .error e →
      findOutgoingStreamLimit P r o = o.maxOutboundStreams.getD DEFAULT_MAX_OUTBOUND_STREAMS)
    ∧ (∀ (conn : Connection) (m : Muxer) (r : Registrar) (P : String) (o : NewStreamOptions),
      conn.muxer = some m →
      countStreams P Direction.outbound conn ≥ findOutgoingStreamLimit P r o →
      (Connection.newStream conn r (.ok P) o).1 =
        .error (.tooManyOutboundProtocolStreams P
          (countStreams P Direction.outbound conn) (findOutgoingStreamLimit P r o))
      ∧ Event.streamAbort ∈ (Connection.newStream conn r (.ok P) o).2) := by
  refine ⟨?_, ?_, ?_, ?_, ?_⟩
  · intro r P entry n o hget hmax
    simp [findOutgoingStreamLimit, hget, hmax]
  · intro r P entry k o hget hmax ho
    simp [findOutgoingStreamLimit, hget, hmax, ho]
  · intro r P entry o hget hmax ho
    simp [findOutgoingStreamLimit, hget, hmax, ho]
  · intro r P e o hget
    simp [findOutgoingStreamLimit, hget]
  · intro conn m r P o hm hge
    unfold Connection.newStream
    rw [hm]
    dsimp only
    rw [if_pos hge]
    exact ⟨rfl, by simp⟩

theorem c4_outbound_stream_cap_witness :
    (Connection.newStream kadConn kadRegistrar (.ok "/kad/1.0.0") { maxOutboundStreams := none }).1 =
      .error (.tooManyOutboundProtocolStreams "/kad/1.0.0"
        (countStreams "/kad/1.0.0" Direction.outbound kadConn)
        (findOutgoingStreamLimit "/kad/1.0.0" kadRegistrar { maxOutboundStreams := none }))
    ∧ Event.streamAbort ∈
        (Connection.newStream kadConn kadRegistrar (.ok "/kad/1.0.0") { maxOutboundStreams := none }).2 :=
  c4_outbound_stream_cap.2.2.2.2 kadConn { yamuxMuxer with streams :=
      [{ id := 0, direction := Direction.outbound, protocol := some "/kad/1.0.0", timelineClose := false }] }
    kadRegistrar "/kad/1.0.0" { maxOutboundStreams := none } rfl (by decide)

/-- C7: on a connection with non-null `limits`, an inbound stream negotiated
for a protocol whose handler has not set `runOnLimitedConnection = true` is
rejected with a `LimitedConnection` error before the handler is invoked, the
handler is never called and the rejected stream is closed; a handler with
`runOnLimitedConnection = true` is delivered normally. -/
theorem c7_limited_connection_routing :
    (∀ (r : Registrar) (conn : Connection) (P : String) (entry : RegistrarEntry),
      conn.limits ≠ none →
      r.getHandler P = .ok entry →
      entry.options.runOnLimitedConnection ≠ some true →
      findIncomingStreamLimit P r ≠ some (countStreams P Direction.inbound conn) →
      (onIncomingStream r conn (.ok P)).1 =
          .error (.limitedConnection "Cannot open protocol stream on limited connection")
        ∧ (onIncomingStream r conn (.ok P)).2.all (fun ev => !ev.isHandlerInvoked) = true
        ∧ Event.streamClose ∈ (onIncomingStream r conn (.ok P)).2)
    ∧ (∀ (r : Registrar) (conn : Connection) (P : String) (entry : RegistrarEntry),
      r.getHandler P = .ok entry →
      entry.options.runOnLimitedConnection = some true →
      findIncomingStreamLimit P r ≠ some (countStreams P Direction.inbound conn) →
      (onIncomingStream r conn (.ok P)).1 = .ok (P, entry.handlerId)
        ∧ Event.handlerInvoked P entry.handlerId ∈ (onIncomingStream r conn (.ok P)).2) := by
  constructor
  · intro r conn P entry hlim hget hrun hcap
    unfold onIncomingStream onIncomingStreamBody
    dsimp only
    rw [if_neg hcap, hget]
    dsimp only
    rw [if_pos ⟨hlim, hrun⟩]
    exact ⟨rfl, by simp [Event.isHandlerInvoked], by simp⟩
  · intro r conn P entry hget hrun hcap
    unfold onIncomingStream onIncomingStreamBody
    dsimp only
    rw [if_neg hcap, hget]
    dsimp only
    rw [if_neg (fun hc => hc.2 hrun)]
    exact ⟨rfl, by simp⟩

theorem c7_limited_connection_routing_witness :
    ((onIncomingStream pingRegistrar limitedConn (.ok "/ping/1.0.0")).1 =
        .error (.limitedConnection "Cannot open protocol stream on limited connection")
      ∧ (onIncomingStream pingRegistrar limitedConn (.ok "/ping/1.0.0")).2.all
          (fun ev => !ev.isHandlerInvoked) = true
      ∧ Event.streamClose ∈ (onIncomingStream pingRegistrar limitedConn (.ok "/ping/1.0.0")).2)
    ∧ ((onIncomingStream pingRegistrar limitedConn (.ok "/identify/1.0.0")).1 = .ok ("/identify/1.0.0", 4)
      ∧ Event.handlerInvoked "/identify/1.0.0" 4
          ∈ (onIncomingStream pingRegistrar limitedConn (.ok "/identify/1.0.0")).2) :=
  ⟨c7_limited_connection_routing.1 pingRegistrar limitedConn "/ping/1.0.0"
      { handlerId := 3
        options := { maxInboundStreams := none, maxOutboundStreams := none, runOnLimitedConnection := none } }
      (by decide) rfl (by decide) (by decide),
   c7_limited_connection_routing.2 pingRegistrar limitedConn "/identify/1.0.0"
      { handlerId := 4
        options := { maxInboundStreams := none, maxOutboundStreams := none, runOnLimitedConnection := some true } }
      rfl rfl (by decide)⟩

/-- C8: on every connection built by `_createConnection` the `multiplexer`
field is set exactly when a muxer was installed (which happens exactly when
a muxer factory was selected), and on a connection without a muxer every
`newStream` call fails with `MuxerUnavailable` and `getStreams()` returns
the empty list. -/
theorem c8_multiplexer_iff (o : CreateConnectionOptions) :
    ((_createConnection o).1.multiplexer.isSome = (_createConnection o).1.muxer.isSome
      ∧ (_createConnection o).1.muxer.isSome = o.muxerFactory.isSome)
    ∧ ((_createConnection o).1.muxer = none →
        (∀ (r : Registrar) (raw : Except Err String) (no : NewStreamOptions),
          (Connection.newStream (_createConnection o).1 r raw no).1 =
            .error (.muxerUnavailable "Connection is not multiplexed"))
        ∧ (_createConnection o).1.getStreams = []) := by
  cases o with
  | mk cproto dir rp mf lim =>
    cases mf with
    | none => exact ⟨⟨rfl, rfl⟩, fun _ => ⟨fun r raw no => rfl, rfl⟩⟩
    | some p =>
      refine ⟨⟨rfl, rfl⟩, fun hm => ?_⟩
      simp [_createConnection] at hm

theorem c8_multiplexer_iff_witness :
    (Connection.newStream (_createConnection connNoMuxOpts).1 echoRegistrar
        (.ok "/echo/1.0.0") { maxOutboundStreams := none }).1 =
      .error (.muxerUnavailable "Connection is not multiplexed")
    ∧ (_createConnection connNoMuxOpts).1.getStreams = [] :=
  ⟨((c8_multiplexer_iff connNoMuxOpts).2 rfl).1 echoRegistrar
      (.ok "/echo/1.0.0") { maxOutboundStreams := none },
   ((c8_multiplexer_iff connNoMuxOpts).2 rfl).2⟩

/-- C9: when a handler is registered for `P` without `maxInboundStreams`,
`findIncomingStreamLimit` returns `undefined` (not the default), so the
router's equality check never fires and inbound `P` streams are never
aborted for a cap breach, whatever the current stream count; the
`DEFAULT_MAX_INBOUND_STREAMS` fallback applies only when no handler is
registered for `P` at all. -/
theorem c9_unset_inbound_limit_unlimited :
    (∀ (r : Registrar) (P : String) (entry : RegistrarEntry),
      r.getHandler P = .ok entry →
      entry.options.maxInboundStreams = none →
      findIncomingStreamLimit P r = none
      ∧ ∀ (conn : Connection),
          resultTooManyInbound (onIncomingStream r conn (.ok P)).1 = false)
    ∧ (∀ (r : Registrar) (P : String) (e : Err),
      r.getHandler P = .error e →
      findIncomingStreamLimit P r = some DEFAULT_MAX_INBOUND_STREAMS) := by
  constructor
  · intro r P entry hget hmax
    have hfind : findIncomingStreamLimit P r = none := by
      simp [findIncomingStreamLimit, hget, hmax]
    refine ⟨hfind, ?_⟩
    intro conn
    unfold onIncomingStream onIncomingStreamBody
    dsimp only
    rw [if_neg (by rw [hfind]; simp), hget]
    dsimp only
    by_cases hl : conn.limits ≠ none ∧ entry.options.runOnLimitedConnection ≠ some true
    · rw [if_pos hl]
      rfl
    · rw [if_neg hl]
      rfl
  · intro r P e hget
    simp [findIncomingStreamLimit, hget]

theorem c9_unset_inbound_limit_unlimited_witness :
    findIncomingStreamLimit "/ping/1.0.0" pingRegistrar = none
    ∧ resultTooManyInbound (onIncomingStream pingRegistrar echoConnTwo (.ok "/ping/1.0.0")).1 = false :=
  ⟨(c9_unset_inbound_limit_unlimited.1 pingRegistrar "/ping/1.0.0"
      { handlerId := 3
        options := { maxInboundStreams := none, maxOutboundStreams := none, runOnLimitedConnection := none } }
      rfl rfl).1,
   (c9_unset_inbound_limit_unlimited.1 pingRegistrar "/ping/1.0.0"
      { handlerId := 3
        options := { maxInboundStreams := none, maxOutboundStreams := none, runOnLimitedConnection := none } }
      rfl rfl).2 echoConnTwo⟩

/-- C10: a `TCP.dial` call whose abort signal has fired by the time the
outbound upgrade completes never returns the upgraded connection: it
initiates a close of the connection and throws an `Aborted` error instead. -/
theorem c10_dial_aborted_signal (env : DialEnv) (conn : Connection)
    (hc : env.connectResult = .ok ())
    (hu : env.upgradeResult = .ok conn)
    (hs : env.signalPresent = true)
    (ha : env.signalAborted = true) :
    (tcpDial env).1 = .error .aborted ∧ Event.connClose ∈ (tcpDial env).2 := by
  unfold tcpDial
  rw [hc, hu, hs, ha]
  exact ⟨rfl, by simp⟩

theorem c10_dial_aborted_signal_witness :
    (tcpDial dialEnvAborted).1 = .error .aborted
    ∧ Event.connClose ∈ (tcpDial dialEnvAborted).2 :=
  c10_dial_aborted_signal dialEnvAborted plainConn rfl rfl rfl rfl
